import Mathlib

/-!
Verification of the munich-payment-map status-resolution and vote-aggregation
logic.  The definitions below are a shallow embedding of the JavaScript source
(the fully featured variant with retry, pagination, blacklist and stats).
JS numbers holding vote counters are embedded as Nat; the percent computation
(Math.round over a JS number division) is embedded as the rational rounding
function round over a division in the rationals.
-/

namespace MunichPaymentMap

/-- Display category of a venue, the "type" field of a computed status. -/
inductive Category where
  | card
  | girocard
  | cash
  | unknown
deriving DecidableEq

/-- A per-venue vote tally row, mirroring the columns cash_votes, ec_votes
("ec" stands for the girocard counter) and card_votes of the venue_votes
table. -/
structure Votes where
  cash_votes : Nat
  ec_votes : Nat
  card_votes : Nat
deriving DecidableEq

/-- The result of status resolution: marker color, display text and category,
as built by calculateStatus. -/
structure Status where
  color : String
  text : String
  type : Category
deriving DecidableEq

/-- Embedding of calculateStatus: majority rule over the three counters with
the exact branch order of the source (card branch first, then girocard, then
cash, else unknown). -/
def calculateStatus (votes : Votes) : Status :=
  if votes.card_votes ≥ votes.ec_votes ∧ votes.card_votes ≥ votes.cash_votes ∧
      votes.card_votes > 0 then
    { color := "#34C759",
      text := "Verified: Accepts All Common Cards (" ++ toString votes.card_votes ++ " votes)",
      type := Category.card }
  else if votes.ec_votes ≥ votes.cash_votes ∧ votes.ec_votes > 0 then
    { color := "#FFCC00",
      text := "Verified: Girocard Only (" ++ toString votes.ec_votes ++ " votes)",
      type := Category.girocard }
  else if votes.cash_votes > 0 then
    { color := "#FF3B30",
      text := "Verified: Cash Only (" ++ toString votes.cash_votes ++ " votes)",
      type := Category.cash }
  else
    { color := "#b0bec5", text := "Unknown", type := Category.unknown }

/-- OSM payment tags of a venue, the properties consulted by the fallback in
fetchOverpassData.  A missing tag is none. -/
structure OsmTags where
  payment_cards : Option String := none
  payment_visa : Option String := none
  payment_mastercard : Option String := none
  payment_girocard : Option String := none
deriving DecidableEq

/-- Embedding of the OSM-tag fallback block of fetchOverpassData: applied only
when the vote-derived status has type unknown, checking the tags in the order
of the source. -/
def osmFallback (p : OsmTags) (status : Status) : Status :=
  if status.type = Category.unknown then
    if p.payment_cards = some "no" then
      { color := "#FF3B30", text := "Cash Only (OSM)", type := Category.cash }
    else if p.payment_visa = some "yes" ∨ p.payment_mastercard = some "yes" ∨
        p.payment_cards = some "yes" then
      { color := "#34C759", text := "Accepts All Common Cards (OSM)", type := Category.card }
    else if p.payment_girocard = some "yes" then
      { color := "#FFCC00", text := "Girocard Only (OSM)", type := Category.girocard }
    else
      status
  else
    status

/-- Per-venue resolution as performed in the feature-processing loop of
fetchOverpassData: majority rule over the tally, then the OSM-tag fallback. -/
def resolveStatus (votes : Votes) (p : OsmTags) : Status :=
  osmFallback p (calculateStatus votes)

/-- The three vote buttons of the popup. -/
inductive VoteType where
  | cash
  | girocard
  | card
deriving DecidableEq

/-- Embedding of the counter selection in handleVote: the column name
voteType plus suffix with "girocard" renamed to "ec", and the increment by one
of exactly that column. -/
def applyVote (voteType : VoteType) (v : Votes) : Votes :=
  match voteType with
  | VoteType.cash => { v with cash_votes := v.cash_votes + 1 }
  | VoteType.girocard => { v with ec_votes := v.ec_votes + 1 }
  | VoteType.card => { v with card_votes := v.card_votes + 1 }

/-- The mutable per-feature properties written by the processing loop and by
handleVote. -/
structure VenueProps where
  name : Option String
  tags : OsmTags
  votes : Votes
  marker_color : String
  payment_status : String
  filter_type : Category
deriving DecidableEq

/-- A GeoJSON feature as held in masterData: a stable id plus properties. -/
structure Feature where
  id : String
  properties : VenueProps
deriving DecidableEq

/-- The aggregate stats state: total venues, venues with a known category,
and the rounded percentage. -/
structure Stats where
  total : Nat
  mapped : Nat
  percent : ℤ
deriving DecidableEq

/-- Embedding of the stats computation in fetchOverpassData: total venues,
venues whose filter_type is not unknown, and
Math.round of (mapped divided by total) times 100, zero when total is zero. -/
def computeStats (features : List Feature) : Stats :=
  let totalVenues := features.length
  let mappedVenues :=
    (features.filter (fun f => f.properties.filter_type ≠ Category.unknown)).length
  let percentage : ℤ :=
    if totalVenues > 0 then round (((mappedVenues : ℚ) / (totalVenues : ℚ)) * 100) else 0
  { total := totalVenues, mapped := mappedVenues, percent := percentage }

/-- Embedding of the setStats updater in handleVote, run when a vote flips a
venue from unknown to known: mapped plus one, same total, percent recomputed
by Math.round of (newMapped divided by total) times 100. -/
def patchStats (prev : Stats) : Stats :=
  { total := prev.total,
    mapped := prev.mapped + 1,
    percent := round ((((prev.mapped + 1 : Nat) : ℚ) / (prev.total : ℚ)) * 100) }

/-- The shared client state touched by handleVote: the masterData feature
collection, the aggregate stats, and the localStorage votedVenues flags. -/
structure AppState where
  features : List Feature
  stats : Stats
  votedVenues : List String
deriving DecidableEq

/-- Outcome of the Supabase upsert in handleVote. -/
inductive DbResult where
  | ok
  | error
deriving DecidableEq

/-- Replace the first element satisfying p, mirroring the find-then-mutate
in-place update of handleVote. -/
def updateFirst (p : α → Bool) (g : α → α) : List α → List α
  | [] => []
  | x :: xs => if p x then g x :: xs else x :: updateFirst p g xs

/-- Embedding of handleVote: find the clicked feature in masterData, compute
the incremented tally, run the upsert (whose outcome is the db argument), and
only on success mutate the feature, conditionally patch the stats, and set the
localStorage voted flag.  On a missing feature or a db error the state is
returned unchanged, as in the source (early return before any mutation). -/
def handleVote (s : AppState) (clickedId : String) (voteType : VoteType)
    (db : DbResult) : AppState :=
  match s.features.find? (fun f => f.id == clickedId) with
  | none => s
  | some mtch =>
    match db with
    | DbResult.error => s
    | DbResult.ok =>
      let wasUnknown := mtch.properties.filter_type = Category.unknown
      let newVotes := applyVote voteType mtch.properties.votes
      let newStatus := calculateStatus newVotes
      { features :=
          updateFirst (fun f => f.id == clickedId)
            (fun f =>
              { f with properties :=
                  { f.properties with
                      votes := newVotes,
                      marker_color := newStatus.color,
                      payment_status := newStatus.text,
                      filter_type := newStatus.type } })
            s.features,
        stats :=
          if wasUnknown ∧ newStatus.type ≠ Category.unknown then patchStats s.stats
          else s.stats,
        votedVenues := clickedId :: s.votedVenues }

/-- The maxRetries constant of the source. -/
def maxRetries : Nat := 3

/-- The retry-relevant client state: the retryCount ref, the isLoading and
loadError react state, and the pending setTimeout driven retry (its delay in
milliseconds), if any. -/
structure FetchState where
  retryCount : Nat
  isLoading : Bool
  loadError : Option String
  scheduledRetryDelayMs : Option Nat
deriving DecidableEq

/-- State at mount: retryCount zero, loading, no error, nothing scheduled. -/
def initialFetchState : FetchState :=
  { retryCount := 0, isLoading := true, loadError := none,
    scheduledRetryDelayMs := none }

/-- The transient loadError text while a retry is pending. -/
def retryingMessage (n : Nat) : String :=
  "Loading failed. Retrying... (" ++ toString n ++ "/" ++ toString maxRetries ++ ")"

/-- The loadError text after retries are exhausted. -/
def permanentErrorMessage : String :=
  "Failed to load venue data. Please refresh the page."

/-- Start of fetchOverpassData: set loading, clear the error. -/
def fetchStart (s : FetchState) : FetchState :=
  { s with isLoading := true, loadError := none }

/-- The catch block of fetchOverpassData: while retryCount is below
maxRetries, bump the counter, show the retrying message and schedule the next
attempt after 2 to the power (retryCount minus 1) seconds; otherwise stop
loading and show the permanent error with nothing scheduled. -/
def fetchFailure (s : FetchState) : FetchState :=
  if s.retryCount < maxRetries then
    { s with retryCount := s.retryCount + 1,
             loadError := some (retryingMessage (s.retryCount + 1)),
             scheduledRetryDelayMs := some (2 ^ (s.retryCount + 1 - 1) * 1000) }
  else
    { s with isLoading := false,
             loadError := some permanentErrorMessage,
             scheduledRetryDelayMs := none }

/-- The success tail of fetchOverpassData: loading done and the retry counter
reset to zero. -/
def fetchSuccess (s : FetchState) : FetchState :=
  { s with isLoading := false, retryCount := 0, scheduledRetryDelayMs := none }

/-- The click handler of the error notification: reset the retry counter and
start a fresh fetch. -/
def manualRetry (s : FetchState) : FetchState :=
  fetchStart { s with retryCount := 0 }

/-- One complete failed fetch attempt: the function starts (clearing the
error) and then its catch block runs. -/
def failStep (s : FetchState) : FetchState :=
  fetchFailure (fetchStart s)

/-- Embedding of the response validation at the top of fetchOverpassData: a
non-ok response, a missing or empty elements array, and a conversion
producing no features are each thrown as errors; only a non-empty feature
list is a success. -/
def processOverpassResponse (responseOk : Bool) (elements : Option (List α))
    (osmtogeojson : List α → List Feature) : Except String (List Feature) :=
  if responseOk = false then
    Except.error "Overpass API error"
  else
    match elements with
    | none => Except.error "No data received from Overpass API"
    | some els =>
      if els.length = 0 then
        Except.error "No data received from Overpass API"
      else if (osmtogeojson els).length = 0 then
        Except.error "Failed to convert OSM data to GeoJSON"
      else
        Except.ok (osmtogeojson els)

/-- A thrown error lands in the catch block (the retry path); a success runs
the success tail. -/
def fetchOutcomeState (result : Except String (List Feature))
    (s : FetchState) : FetchState :=
  match result with
  | Except.error _ => fetchFailure s
  | Except.ok _ => fetchSuccess s

/-- The pagination page size of the votes read. -/
def pageSize : Nat := 1000

/-- Embedding of the votes pagination loop: each iteration reads the range
from the current offset of length pageSize (the take of what remains), stops
on an empty page or a short page, otherwise accumulates and advances the
offset by pageSize.  Returns the accumulated records and the number of page
reads issued. -/
def listVotesPages (backing : List α) : List α × Nat :=
  if (backing.take pageSize).length = 0 then
    ([], 1)
  else if (backing.take pageSize).length < pageSize then
    (backing.take pageSize, 1)
  else
    ((backing.take pageSize) ++ (listVotesPages (backing.drop pageSize)).1,
      (listVotesPages (backing.drop pageSize)).2 + 1)
termination_by backing.length
decreasing_by
  all_goals simp [pageSize] at *
  all_goals omega

/-- Embedding of the blacklist read handling: on a read error the previously
stored set is kept (the source logs and continues), and a successful
non-empty result replaces the stored set; a successful empty result also
keeps the previous set. -/
def loadBlacklist (prev : List String) (result : Except Unit (List String)) :
    List String :=
  match result with
  | Except.error _ => prev
  | Except.ok ids => if ids.length > 0 then ids else prev

/-- Embedding of the blacklist filter over the fetched features. -/
def filterBlacklisted (blacklist : List String) (features : List Feature) :
    List Feature :=
  features.filter (fun f => !(blacklist.contains f.id))

/-- A concrete unknown-status venue, used to instantiate theorems with
hypotheses. -/
def sampleFeature : Feature :=
  { id := "node/1",
    properties :=
      { name := some "Cafe Beispiel",
        tags := {},
        votes := ⟨0, 0, 0⟩,
        marker_color := "#b0bec5",
        payment_status := "Unknown",
        filter_type := Category.unknown } }

/-- A concrete client state holding just the sample venue. -/
def sampleState : AppState :=
  { features := [sampleFeature],
    stats := { total := 1, mapped := 0, percent := 0 },
    votedVenues := [] }

end MunichPaymentMap

namespace MunichPaymentMap

/-- Helper characterisation: calculateStatus yields category unknown exactly
on the all-zero tally. -/
theorem calculateStatus_unknown_iff (v : Votes) :
    (calculateStatus v).type = Category.unknown ↔
      v.cash_votes = 0 ∧ v.ec_votes = 0 ∧ v.card_votes = 0 := by
  obtain ⟨cash, ec, card⟩ := v
  simp only [calculateStatus]
  split_ifs with h1 h2 h3 <;> simp_all <;> omega

/-- C1: calculateStatus assigns category card iff card_votes is at least each
rival counter and positive; otherwise girocard iff ec_votes is at least
cash_votes and positive; otherwise cash iff cash_votes is positive; otherwise
unknown.  The three scenario tallies resolve to card, cash and girocard
respectively. -/
theorem calculateStatus_majority_rule :
    (∀ v : Votes,
      ((calculateStatus v).type = Category.card ↔
        (v.card_votes ≥ v.ec_votes ∧ v.card_votes ≥ v.cash_votes ∧ v.card_votes > 0)) ∧
      ((calculateStatus v).type = Category.girocard ↔
        (¬(v.card_votes ≥ v.ec_votes ∧ v.card_votes ≥ v.cash_votes ∧ v.card_votes > 0) ∧
          v.ec_votes ≥ v.cash_votes ∧ v.ec_votes > 0)) ∧
      ((calculateStatus v).type = Category.cash ↔
        (¬(v.card_votes ≥ v.ec_votes ∧ v.card_votes ≥ v.cash_votes ∧ v.card_votes > 0) ∧
          ¬(v.ec_votes ≥ v.cash_votes ∧ v.ec_votes > 0) ∧ v.cash_votes > 0)) ∧
      ((calculateStatus v).type = Category.unknown ↔
        (¬(v.card_votes ≥ v.ec_votes ∧ v.card_votes ≥ v.cash_votes ∧ v.card_votes > 0) ∧
          ¬(v.ec_votes ≥ v.cash_votes ∧ v.ec_votes > 0) ∧ ¬v.cash_votes > 0))) ∧
    (calculateStatus ⟨2, 0, 2⟩).type = Category.card ∧
    (calculateStatus ⟨3, 0, 2⟩).type = Category.cash ∧
    (calculateStatus ⟨0, 1, 0⟩).type = Category.girocard := by
  refine ⟨fun v => ?_, by decide, by decide, by decide⟩
  obtain ⟨cash, ec, card⟩ := v
  simp only [calculateStatus]
  split_ifs with h1 h2 h3 <;> simp_all <;> tauto

/-- Helper: on a status whose type is not unknown the OSM fallback is the
identity. -/
theorem osmFallback_of_known (p : OsmTags) (st : Status)
    (h : st.type ≠ Category.unknown) : osmFallback p st = st := by
  simp [osmFallback, h]

/-- C2: on the all-zero tally, resolution falls back to the OSM tags in the
priority order of the source — a "no" cards tag gives cash, else a "yes" on
visa, mastercard or cards gives card, else a "yes" girocard tag gives
girocard, else the category stays unknown; and on any tally with a positive
counter the tags are ignored entirely. -/
theorem resolveStatus_zero_tally_fallback :
    (∀ p : OsmTags,
      (p.payment_cards = some "no" →
        (resolveStatus ⟨0, 0, 0⟩ p).type = Category.cash) ∧
      (p.payment_cards ≠ some "no" →
        (p.payment_visa = some "yes" ∨ p.payment_mastercard = some "yes" ∨
          p.payment_cards = some "yes") →
        (resolveStatus ⟨0, 0, 0⟩ p).type = Category.card) ∧
      (p.payment_cards ≠ some "no" →
        ¬(p.payment_visa = some "yes" ∨ p.payment_mastercard = some "yes" ∨
          p.payment_cards = some "yes") →
        p.payment_girocard = some "yes" →
        (resolveStatus ⟨0, 0, 0⟩ p).type = Category.girocard) ∧
      (p.payment_cards ≠ some "no" →
        ¬(p.payment_visa = some "yes" ∨ p.payment_mastercard = some "yes" ∨
          p.payment_cards = some "yes") →
        p.payment_girocard ≠ some "yes" →
        (resolveStatus ⟨0, 0, 0⟩ p).type = Category.unknown)) ∧
    (∀ (v : Votes) (p : OsmTags),
      ¬(v.cash_votes = 0 ∧ v.ec_votes = 0 ∧ v.card_votes = 0) →
      resolveStatus v p = calculateStatus v) := by
  constructor
  · intro p
    refine ⟨fun h1 => ?_, fun h1 h2 => ?_, fun h1 h2 h3 => ?_, fun h1 h2 h3 => ?_⟩ <;>
      simp_all [resolveStatus, osmFallback, calculateStatus]
  · intro v p h
    exact osmFallback_of_known p (calculateStatus v)
      (fun hc => h ((calculateStatus_unknown_iff v).mp hc))

/-- Witness for C2: concrete tag sets exercising the "no card payment"
fallback and the tag-ignoring branch for a positive tally. -/
theorem resolveStatus_zero_tally_fallback_witness :
    ({ payment_cards := some "no" } : OsmTags).payment_cards = some "no" ∧
    (resolveStatus ⟨0, 0, 0⟩ { payment_cards := some "no" }).type = Category.cash ∧
    ¬((⟨1, 0, 0⟩ : Votes).cash_votes = 0 ∧ (⟨1, 0, 0⟩ : Votes).ec_votes = 0 ∧
      (⟨1, 0, 0⟩ : Votes).card_votes = 0) ∧
    resolveStatus ⟨1, 0, 0⟩ ({} : OsmTags) = calculateStatus ⟨1, 0, 0⟩ :=
  ⟨rfl, (resolveStatus_zero_tally_fallback.1 { payment_cards := some "no" }).1 rfl,
    by decide,
    resolveStatus_zero_tally_fallback.2 ⟨1, 0, 0⟩ ({} : OsmTags) (by decide)⟩

/-- C3: when the upsert fails, handleVote returns the state unchanged — no
counter incremented, no status or stats update, no voted flag set. -/
theorem handleVote_error_preserves_state :
    ∀ (s : AppState) (clickedId : String) (voteType : VoteType),
      handleVote s clickedId voteType DbResult.error = s := by
  intro s clickedId voteType
  unfold handleVote
  cases s.features.find? (fun f => f.id == clickedId) <;> rfl

/-- Helper: after incrementing any single counter the majority rule never
yields category unknown. -/
theorem applyVote_status_not_unknown (voteType : VoteType) (v : Votes) :
    (calculateStatus (applyVote voteType v)).type ≠ Category.unknown := by
  intro hc
  rw [calculateStatus_unknown_iff] at hc
  cases voteType <;> simp [applyVote] at hc

/-- Helper: updateFirst commutes with find? when the update preserves the
predicate. -/
theorem find?_updateFirst (p : α → Bool) (g : α → α)
    (hpg : ∀ a, p a = true → p (g a) = true) :
    ∀ l : List α, (updateFirst p g l).find? p = (l.find? p).map g := by
  intro l
  induction l with
  | nil => simp [updateFirst]
  | cons x xs ih =>
    by_cases h : p x = true
    · simp [updateFirst, h, List.find?, hpg x h]
    · simp [updateFirst, h, List.find?, ih]

/-- C10: resolving a tally with any one counter incremented never gives
unknown; a known status is never overridden by the OSM fallback; and after a
successful vote the voted venue found in the collection has a non-unknown
category. -/
theorem vote_never_unknown :
    (∀ (voteType : VoteType) (v : Votes),
      (calculateStatus (applyVote voteType v)).type ≠ Category.unknown) ∧
    (∀ (v : Votes) (p : OsmTags),
      (calculateStatus v).type ≠ Category.unknown →
      resolveStatus v p = calculateStatus v) ∧
    (∀ (s : AppState) (clickedId : String) (voteType : VoteType) (f0 : Feature),
      s.features.find? (fun f => f.id == clickedId) = some f0 →
      ∃ f1, (handleVote s clickedId voteType DbResult.ok).features.find?
          (fun f => f.id == clickedId) = some f1 ∧
        f1.properties.filter_type ≠ Category.unknown) := by
  refine ⟨applyVote_status_not_unknown,
    fun v p h => osmFallback_of_known p (calculateStatus v) h, ?_⟩
  intro s clickedId voteType f0 hfind
  simp only [handleVote, hfind]
  rw [find?_updateFirst]
  · rw [hfind]
    exact ⟨_, rfl, applyVote_status_not_unknown voteType f0.properties.votes⟩
  · exact fun a ha => ha

/-- Witness for C10: the sample state yields a found venue whose category is
no longer unknown after a successful card vote. -/
theorem vote_never_unknown_witness :
    sampleState.features.find? (fun f => f.id == "node/1") = some sampleFeature ∧
    (∃ f1, (handleVote sampleState "node/1" VoteType.card DbResult.ok).features.find?
        (fun f => f.id == "node/1") = some f1 ∧
      f1.properties.filter_type ≠ Category.unknown) :=
  ⟨rfl, vote_never_unknown.2.2 sampleState "node/1" VoteType.card sampleFeature rfl⟩

/-- C8: on a successful vote, when the voted venue was already known the
stats are unchanged; when it was unknown the stats are patched with mapped
plus one, unchanged total and percent recomputed as the rounding of
100 times new mapped over total; and no vote outcome ever decrements
mapped. -/
theorem handleVote_stats_patch :
    ∀ (s : AppState) (clickedId : String) (voteType : VoteType) (f0 : Feature),
      s.features.find? (fun f => f.id == clickedId) = some f0 →
      ((f0.properties.filter_type ≠ Category.unknown →
        (handleVote s clickedId voteType DbResult.ok).stats = s.stats) ∧
       (f0.properties.filter_type = Category.unknown →
        (handleVote s clickedId voteType DbResult.ok).stats.total = s.stats.total ∧
        (handleVote s clickedId voteType DbResult.ok).stats.mapped = s.stats.mapped + 1 ∧
        (handleVote s clickedId voteType DbResult.ok).stats.percent =
          round ((100 * ((s.stats.mapped + 1 : Nat) : ℚ)) / (s.stats.total : ℚ))) ∧
       (∀ db : DbResult, s.stats.mapped ≤ (handleVote s clickedId voteType db).stats.mapped)) := by
  intro s clickedId voteType f0 hfind
  refine ⟨fun hk => ?_, fun hu => ?_, fun db => ?_⟩
  · simp [handleVote, hfind, hk]
  · have hnu := applyVote_status_not_unknown voteType f0.properties.votes
    simp [handleVote, hfind, hu, hnu, patchStats]
    congr 1
    ring
  · cases db
    · simp [handleVote, hfind]
      split_ifs
      · simp [patchStats]
      · exact le_refl _
    · simp [handleVote, hfind]

/-- Witness for C8: voting card on the unknown sample venue bumps mapped from
0 to 1. -/
theorem handleVote_stats_patch_witness :
    sampleState.features.find? (fun f => f.id == "node/1") = some sampleFeature ∧
    sampleFeature.properties.filter_type = Category.unknown ∧
    (handleVote sampleState "node/1" VoteType.card DbResult.ok).stats.mapped =
      sampleState.stats.mapped + 1 :=
  ⟨rfl, rfl,
    ((handleVote_stats_patch sampleState "node/1" VoteType.card sampleFeature rfl).2.1
      rfl).2.1⟩

/-- C7: computeStats on the empty list is all zero, and in general total is
the venue count, mapped the count of known-category venues, and percent the
rounding of 100 times mapped over total, zero when total is zero. -/
theorem computeStats_spec :
    computeStats [] = { total := 0, mapped := 0, percent := 0 } ∧
    (∀ venues : List Feature,
      (computeStats venues).total = venues.length ∧
      (computeStats venues).mapped =
        (venues.filter (fun f => f.properties.filter_type ≠ Category.unknown)).length ∧
      (computeStats venues).percent =
        (if venues.length = 0 then (0 : ℤ) else
          round ((100 * ((computeStats venues).mapped : ℚ)) / (venues.length : ℚ)))) := by
  refine ⟨rfl, fun venues => ⟨rfl, rfl, ?_⟩⟩
  by_cases h : venues.length = 0
  · simp [computeStats, h]
  · have h' : 0 < venues.length := Nat.pos_of_ne_zero h
    simp only [computeStats, h, if_neg, h', if_pos, ite_false]
    congr 1
    ring

/-- C4 counterexample: after exactly three consecutive failed fetch attempts
the state still has an automatic retry scheduled (after 4 seconds) and shows
the transient retrying message, not the permanent error. -/
theorem fetch_three_failures_still_retry :
    (failStep (failStep (failStep initialFetchState))).scheduledRetryDelayMs =
      some 4000 ∧
    (failStep (failStep (failStep initialFetchState))).loadError =
      some (retryingMessage 3) ∧
    retryingMessage 3 ≠ permanentErrorMessage := by
  refine ⟨rfl, rfl, by decide⟩

/-- C4 amended: the three automatic retries are delayed 1, 2 and 4 seconds;
after the fourth consecutive failure (the initial attempt plus all three
retries) the state is the permanent user-visible error with no retry
scheduled, and it stays so on further failures; the retry counter is reset to
zero by a successful load and by the manual retry click. -/
theorem fetch_retry_policy :
    (failStep initialFetchState).scheduledRetryDelayMs = some 1000 ∧
    (failStep (failStep initialFetchState)).scheduledRetryDelayMs = some 2000 ∧
    (failStep (failStep (failStep initialFetchState))).scheduledRetryDelayMs =
      some 4000 ∧
    (failStep (failStep (failStep (failStep initialFetchState)))).loadError =
      some permanentErrorMessage ∧
    (failStep (failStep (failStep (failStep initialFetchState)))).scheduledRetryDelayMs =
      none ∧
    (failStep (failStep (failStep (failStep initialFetchState)))).isLoading = false ∧
    (failStep (failStep (failStep (failStep (failStep initialFetchState))))).scheduledRetryDelayMs =
      none ∧
    (∀ s : FetchState, (fetchSuccess s).retryCount = 0) ∧
    (∀ s : FetchState, (manualRetry s).retryCount = 0) :=
  ⟨rfl, rfl, rfl, rfl, rfl, rfl, rfl, fun _ => rfl, fun _ => rfl⟩

/-- C5: a successful processed response never carries an empty feature list;
a missing or empty elements array always yields an error; and every error
feeds the failure (retry) transition, never the success one. -/
theorem processOverpassResponse_rejects_empty :
    (∀ (responseOk : Bool) (elements : Option (List Unit))
        (conv : List Unit → List Feature) (fs : List Feature),
      processOverpassResponse responseOk elements conv = Except.ok fs → fs ≠ []) ∧
    (∀ (responseOk : Bool) (conv : List Unit → List Feature),
      (∃ msg, processOverpassResponse responseOk none conv = Except.error msg) ∧
      (∃ msg, processOverpassResponse responseOk (some []) conv = Except.error msg)) ∧
    (∀ (result : Except String (List Feature)) (s : FetchState) (msg : String),
      result = Except.error msg → fetchOutcomeState result s = fetchFailure s) := by
  refine ⟨?_, ?_, ?_⟩
  · intro responseOk elements conv fs h hfs
    subst hfs
    cases responseOk
    all_goals cases elements
    all_goals simp [processOverpassResponse] at h
    split_ifs at h
    simp_all
  · intro responseOk conv
    cases responseOk <;> exact ⟨⟨_, rfl⟩, ⟨_, rfl⟩⟩
  · intro result s msg h
    subst h
    rfl

/-- Witness for C5: a concrete one-element response converting to one feature
is accepted as non-empty, and a concrete error is routed to the failure
transition. -/
theorem processOverpassResponse_rejects_empty_witness :
    processOverpassResponse true (some [()]) (fun _ => [sampleFeature]) =
      Except.ok [sampleFeature] ∧
    [sampleFeature] ≠ ([] : List Feature) ∧
    fetchOutcomeState (Except.error "boom") initialFetchState =
      fetchFailure initialFetchState :=
  ⟨rfl,
    processOverpassResponse_rejects_empty.1 true (some [()])
      (fun _ => [sampleFeature]) [sampleFeature] rfl,
    processOverpassResponse_rejects_empty.2.2 (Except.error "boom")
      initialFetchState "boom" rfl⟩

/-- Helper: the pagination loop returns the whole backing list, by strong
induction on its length. -/
theorem listVotesPages_fst_aux :
    ∀ (n : Nat) (α : Type) (l : List α), l.length ≤ n → (listVotesPages l).1 = l := by
  intro n
  induction n with
  | zero =>
    intro α l h
    have hl : l = [] := List.length_eq_zero.mp (Nat.le_zero.mp h)
    subst hl
    simp [listVotesPages]
  | succ n ih =>
    intro α l h
    have hps : pageSize = 1000 := rfl
    unfold listVotesPages
    split_ifs with h0 hlt
    · rw [List.length_take] at h0
      have hl : l.length = 0 := by omega
      simp [List.length_eq_zero.mp hl]
    · rw [List.length_take] at hlt
      exact List.take_of_length_le (by omega)
    · rw [List.length_take] at h0 hlt
      rw [ih α (l.drop pageSize) (by rw [List.length_drop]; omega)]
      exact List.take_append_drop pageSize l

/-- Helper: a backing list shorter than the page size is read in a single
page. -/
theorem listVotesPages_snd_short (l : List α) (h : l.length < pageSize) :
    (listVotesPages l).2 = 1 := by
  unfold listVotesPages
  split_ifs with h0 hlt
  · rfl
  · rfl
  · rw [List.length_take] at hlt
    omega

/-- Helper: a backing list of at least the page size costs one read plus the
reads of the remainder. -/
theorem listVotesPages_snd_long (l : List α) (h : pageSize ≤ l.length) :
    (listVotesPages l).2 = (listVotesPages (l.drop pageSize)).2 + 1 := by
  conv_lhs => rw [listVotesPages]
  have hps : pageSize = 1000 := rfl
  split_ifs with h0 hlt
  · rw [List.length_take] at h0
    omega
  · rw [List.length_take] at hlt
    omega
  · rfl

/-- C6: the pagination read returns every backing record, and over a backing
set of 2500 records it issues exactly 3 page reads. -/
theorem listVotesPages_complete :
    (∀ (α : Type) (backing : List α), (listVotesPages backing).1 = backing) ∧
    (∀ backing : List Votes, backing.length = 2500 →
      (listVotesPages backing).2 = 3) := by
  constructor
  · intro α backing
    exact listVotesPages_fst_aux backing.length α backing le_rfl
  · intro backing h
    have hps : pageSize = 1000 := rfl
    rw [listVotesPages_snd_long _ (by omega)]
    rw [listVotesPages_snd_long _ (by rw [List.length_drop]; omega)]
    rw [listVotesPages_snd_short _ (by rw [List.length_drop, List.length_drop]; omega)]

/-- Witness for C6: a concrete backing set of 2500 identical rows is read in
exactly 3 pages. -/
theorem listVotesPages_complete_witness :
    (List.replicate 2500 (Votes.mk 0 0 0)).length = 2500 ∧
    (listVotesPages (List.replicate 2500 (Votes.mk 0 0 0))).2 = 3 :=
  ⟨by rw [List.length_replicate],
    listVotesPages_complete.2 (List.replicate 2500 (Votes.mk 0 0 0))
      (by rw [List.length_replicate])⟩

/-- C9 counterexample: after a successful load stored the blacklist
["node/1"], a later failing blacklist read keeps that stored set instead of
treating it as empty, so the sample venue is filtered out even though the
read failed. -/
theorem blacklist_failure_filters_counterexample :
    loadBlacklist (loadBlacklist [] (Except.ok ["node/1"])) (Except.error ()) =
      ["node/1"] ∧
    filterBlacklisted
      (loadBlacklist (loadBlacklist [] (Except.ok ["node/1"])) (Except.error ()))
      [sampleFeature] = [] := by
  exact ⟨rfl, rfl⟩

/-- C9 amended: a failing blacklist read keeps the previously stored set — in
particular, from the initial empty set nothing is filtered; a successful
non-empty read replaces the set, and filtering is exact: a feature survives
iff its id is not in the stored set. -/
theorem blacklist_handling :
    (∀ features : List Feature,
      filterBlacklisted (loadBlacklist [] (Except.error ())) features = features) ∧
    (∀ prev : List String, loadBlacklist prev (Except.error ()) = prev) ∧
    (∀ (prev ids : List String), ids ≠ [] →
      loadBlacklist prev (Except.ok ids) = ids) ∧
    (∀ (blacklist : List String) (features : List Feature) (f : Feature),
      f ∈ filterBlacklisted blacklist features ↔
        f ∈ features ∧ ¬ f.id ∈ blacklist) := by
  refine ⟨?_, fun prev => rfl, ?_, ?_⟩
  · intro features
    simp [filterBlacklisted, loadBlacklist, List.filter_eq_self]
  · intro prev ids h
    simp [loadBlacklist, List.length_pos, h]
  · intro blacklist features f
    simp [filterBlacklisted, List.mem_filter]

/-- Witness for C9: a successful non-empty blacklist read from the empty
initial set stores exactly the fetched ids. -/
theorem blacklist_handling_witness :
    (["node/2"] : List String) ≠ [] ∧
    loadBlacklist [] (Except.ok ["node/2"]) = ["node/2"] :=
  ⟨by simp, blacklist_handling.2.2.1 [] ["node/2"] (by simp)⟩

end MunichPaymentMap
